import Mathlib

/-!
Verification development for the Kirby-game-clone repository (TypeScript, kaboom.js).

The source of truth is the repository's final `entities.ts` / `utils.ts` iteration
(the repo also carries earlier draft iterations of the same files).  Pure game
logic is embedded shallowly: event handlers become pure functions from the state
they read to the state they write plus an explicit record of the engine effects
they request (`k.destroy`, `k.go`, `k.add` of a projectile); per-frame behaviour
becomes a step function iterated over frames.  JS numbers are modelled as `ℚ`
(positions, speeds, time) and `ℤ` (health, compared with `=== 0` in the source).
-/

namespace Kirby

/-- Facing direction of the player (`player.direction`, a string
"left" / "right" in the source). -/
inductive Dir
| left
| right
deriving DecidableEq, Repr

/-- The player game object's state, from the component list assembled in
`makePlayer` (entities.ts): `k.health(3)`, `k.opacity(1)` and the custom
attribute bag `{ speed: 300, direction: "right", isInhaling: false,
isFull: false }`.  `pos` comes from `k.pos(posX * scale, posY * scale)`. -/
structure PlayerObj where
  hp : ℤ
  opacity : ℚ
  speed : ℚ
  direction : Dir
  isInhaling : Bool
  isFull : Bool
  posX : ℚ
  posY : ℚ
deriving DecidableEq, Repr

/-- Initial player state built by `makePlayer(k, posX, posY)`.  The global
`scale` constant lives in `constants.ts` and is kept as the parameter `sc`. -/
def makePlayer (posX posY sc : ℚ) : PlayerObj :=
  { hp := 3
    opacity := 1
    speed := 300
    direction := Dir.right
    isInhaling := false
    isFull := false
    posX := posX * sc
    posY := posY * sc }

/-- The part of an enemy game object read by the player's collision handler:
only its `isInhalable` flag. -/
structure EnemyRef where
  isInhalable : Bool
deriving DecidableEq, Repr

/-- Result of one run of the `player.onCollide("enemy", ...)` handler: the
player's updated fields and the engine effects the handler requested. -/
structure CollisionOutcome where
  player : PlayerObj
  enemyDestroyed : Bool
  playerDestroyed : Bool
  goScene : Option String
deriving DecidableEq, Repr

/-- The `player.onCollide("enemy", async (enemy) => ...)` handler from
`makePlayer` (entities.ts).  Branches, in source order:
1. `player.isInhaling && enemy.isInhalable` — consume: clear `isInhaling`,
   `k.destroy(enemy)`, set `isFull`, return;
2. `player.hp() === 0` — death: `k.destroy(player)`, `k.go("level-1")`, return;
3. otherwise `player.hurt()` (hp decreases by the default 1), followed by a
   timed opacity flash tween (0.05 s to 0, then 0.05 s back to 1), a purely
   visual asynchronous effect not part of this discrete outcome. -/
def playerOnCollideEnemy (p : PlayerObj) (e : EnemyRef) : CollisionOutcome :=
  if p.isInhaling && e.isInhalable then
    { player := { p with isInhaling := false, isFull := true }
      enemyDestroyed := true
      playerDestroyed := false
      goScene := none }
  else if p.hp = 0 then
    { player := p
      enemyDestroyed := false
      playerDestroyed := true
      goScene := some "level-1" }
  else
    { player := { p with hp := p.hp - 1 }
      enemyDestroyed := false
      playerDestroyed := false
      goScene := none }

/-- Result of one run of a per-frame `onUpdate` handler: the engine effects
it requested. -/
structure UpdateOutcome where
  playerDestroyed : Bool
  goScene : Option String
deriving DecidableEq, Repr

/-- The `player.onUpdate(() => ...)` fall-through check from `makePlayer`
(entities.ts): `if (player.pos.y > 2000) k.go("level-1")`.  The handler calls
no `k.destroy`. -/
def playerOnUpdateFall (p : PlayerObj) : UpdateOutcome :=
  if p.posY > 2000 then
    { playerDestroyed := false, goScene := some "level-1" }
  else
    { playerDestroyed := false, goScene := none }

/-- Player actions that need an input (`type Action` in entities.ts). -/
inductive Action
| moveLeft
| moveRight
| inhale
deriving DecidableEq, Repr

/-- Tracks which actions are currently being triggered (`type ActionState` /
`const actionState` in entities.ts); all defaults are false. -/
structure ActionState where
  moveLeft : Bool
  moveRight : Bool
  inhale : Bool
deriving DecidableEq, Repr

/-- The control scheme (`const keyMappings: KeyMap` in `setControls`); keys
outside the map yield no action. -/
def keyMappings (key : String) : Option Action :=
  if key = "left" then some Action.moveLeft
  else if key = "a" then some Action.moveLeft
  else if key = "right" then some Action.moveRight
  else if key = "d" then some Action.moveRight
  else if key = "z" then some Action.inhale
  else if key = "1" then some Action.inhale
  else none

/-- `actionState[action] = b` for one action. -/
def setAction (st : ActionState) (a : Action) (b : Bool) : ActionState :=
  match a with
  | Action.moveLeft => { st with moveLeft := b }
  | Action.moveRight => { st with moveRight := b }
  | Action.inhale => { st with inhale := b }

/-- A shootingStar projectile game object, as assembled by the spit branch of
the `k.onKeyRelease` handler in `setControls` (entities.ts): sprite flipped
when facing right, hitbox `Rect(vec2(5,4), 6, 6)`, position offset ±80 in the
facing direction and +5 vertically, and `k.move(k.LEFT/RIGHT, 800)` giving a
horizontal velocity of magnitude 800 in the facing direction. -/
structure Projectile where
  flipX : Bool
  posX : ℚ
  posY : ℚ
  velX : ℚ
deriving DecidableEq, Repr

/-- The projectile spawned by the spit branch for a given player state. -/
def mkShootingStar (p : PlayerObj) : Projectile :=
  { flipX := p.direction = Dir.right
    posX := if p.direction = Dir.left then p.posX - 80 else p.posX + 80
    posY := p.posY + 5
    velX := if p.direction = Dir.left then -800 else 800 }

/-- Result of one run of the `k.onKeyRelease` handler in `setControls`. -/
structure ReleaseOutcome where
  actions : ActionState
  player : PlayerObj
  starsSpawned : List Projectile
deriving DecidableEq, Repr

/-- The `k.onKeyRelease((key) => ...)` handler from `setControls`
(entities.ts, final iteration): unmapped keys are a no-op; a mapped key clears
its action flag; additionally, on the inhale keys (`z` or `1`), if the player
is full it spits — `k.add` of exactly one shootingStar, `isFull := false` —
otherwise the inhale is cancelled (`isInhaling := false`, inhale-effect
sprite hidden). -/
def onKeyRelease (st : ActionState) (p : PlayerObj) (key : String) :
    ReleaseOutcome :=
  match keyMappings key with
  | none => { actions := st, player := p, starsSpawned := [] }
  | some act =>
    let st' := setAction st act false
    if key = "z" ∨ key = "1" then
      if p.isFull then
        { actions := st'
          player := { p with isFull := false }
          starsSpawned := [mkShootingStar p] }
      else
        { actions := st'
          player := { p with isInhaling := false }
          starsSpawned := [] }
    else
      { actions := st', player := p, starsSpawned := [] }

/-- An object of a "colliders" layer in the Tiled map data consumed by
`makeMap` (utils.ts): `{name, x, y, width, height}`. -/
structure ColliderObj where
  name : String
  x : ℚ
  y : ℚ
  width : ℚ
  height : ℚ
deriving DecidableEq, Repr

/-- The game object `makeMap` adds to the map for one collider object: an
area of the object's size at the object's position, a tag, and a static body
for every object except the one named "exit" (which gets no body component at
all, hence is non-static). -/
structure ColliderRecord where
  tag : String
  isStatic : Bool
  x : ℚ
  y : ℚ
  width : ℚ
  height : ℚ
deriving DecidableEq, Repr

/-- One iteration of the "colliders" loop in `makeMap` (utils.ts):
`collider.name !== "exit" ? k.body({ isStatic: true }) : null` and
`collider.name !== "exit" ? "platform" : "exit"`. -/
def makeCollider (o : ColliderObj) : ColliderRecord :=
  { tag := if o.name ≠ "exit" then "platform" else "exit"
    isStatic := if o.name ≠ "exit" then true else false
    x := o.x
    y := o.y
    width := o.width
    height := o.height }

/-- The whole "colliders" layer: one record per object, in order. -/
def makeCollidersLayer (objs : List ColliderObj) : List ColliderRecord :=
  objs.map makeCollider

/-- An object of a "spawnpoints" layer: `{name, x, y}`. -/
structure SpawnObj where
  name : String
  x : ℚ
  y : ℚ
deriving DecidableEq, Repr

/-- The spawn-point registry built by `makeMap`: a JS object mapping a name
to the array of positions recorded under it, modelled as a partial map (a
name with no entry yet maps to `none`). -/
def SpawnReg : Type := String → Option (List (ℚ × ℚ))

/-- One iteration of the "spawnpoints" loop in `makeMap` (utils.ts): if the
key already exists, push `{x, y}` onto its array, otherwise create a new
one-element array. -/
def addSpawnPoint (reg : SpawnReg) (o : SpawnObj) : SpawnReg :=
  fun nm =>
    if nm = o.name then
      match reg o.name with
      | some pts => some (pts ++ [(o.x, o.y)])
      | none => some [(o.x, o.y)]
    else reg nm

/-- The whole "spawnpoints" layer, starting from the empty registry
(`const spawnPoints = {}`). -/
def makeSpawnPoints (objs : List SpawnObj) : SpawnReg :=
  objs.foldl addSpawnPoint (fun _ => none)

/-- The number of jumps configured for the player: `k.doubleJump(10)` in
`makePlayer` (entities.ts, "set the amount of jumps that are allowed"). -/
def playerNumJumps : ℕ := 10

/-- The engine's double-jump component state: the jump charges left until the
next grounding. -/
structure JumpComp where
  jumpsLeft : ℕ
deriving DecidableEq, Repr

/-- The double-jump counter starts at the configured capacity. -/
def initJumpComp : JumpComp :=
  { jumpsLeft := playerNumJumps }

/-- Modelled from the spec: the engine's `doubleJump()` call (kaboom.js
component code, not in src/) invoked by `setControls` on the `x`/`space`
key press — "a jump input consumes one charge if any remain, otherwise is a
no-op".  Returns the new counter and whether a jump happened. -/
def doubleJump (j : JumpComp) : JumpComp × Bool :=
  if j.jumpsLeft = 0 then (j, false)
  else ({ jumpsLeft := j.jumpsLeft - 1 }, true)

/-- Modelled from the spec: the engine resets the jump counter to the
configured capacity when the player becomes grounded. -/
def onGrounded (_ : JumpComp) : JumpComp :=
  { jumpsLeft := playerNumJumps }

/-- Number of successful jumps over a run of `n` consecutive jump inputs
with no grounding in between. -/
def jumpsSucceeded (j : JumpComp) : ℕ → ℕ
  | 0 => 0
  | n + 1 =>
    (if (doubleJump j).2 then 1 else 0) + jumpsSucceeded (doubleJump j).1 n

/-- One frame of the inhalable flag of an enemy carrying the `makeInhalable`
protocol (entities.ts): `enemy.onCollide("inhaleZone", ...)` sets the flag
when overlap with the inhale-zone hitbox begins, `enemy.onCollideEnd` clears
it when the overlap ends, and otherwise the flag keeps its value.  `prev` and
`now` are the geometric overlap with the zone on the previous and current
frame. -/
def inhalableStep (prev now flag : Bool) : Bool :=
  if now && !prev then true
  else if prev && !now then false
  else flag

/-- The inhalable flag over a frame-indexed overlap history, starting from
the flag value `init` the enemy spawned with (no overlap before frame 0). -/
def inhalableTrace (init : Bool) (overlap : ℕ → Bool) : ℕ → Bool
  | 0 => inhalableStep false (overlap 0) init
  | n + 1 => inhalableStep (overlap n) (overlap (n + 1))
      (inhalableTrace init overlap n)

/-- States of the flame (hopper) enemy: `k.state("idle", ["idle", "jump"])`. -/
inductive FlameState
| idle
| jump
deriving DecidableEq, Repr

/-- The flame enemy game object from `makeFlameEnemy` (entities.ts): spawns
in state "idle" with `{ isInhalable: false }`. -/
structure FlameObj where
  isInhalable : Bool
  state : FlameState
  x : ℚ
  y : ℚ
deriving DecidableEq, Repr

/-- Initial flame enemy built by `makeFlameEnemy(k, posX, posY)`. -/
def makeFlameEnemy (posX posY sc : ℚ) : FlameObj :=
  { isInhalable := false
    state := FlameState.idle
    x := posX * sc
    y := posY * sc }

/-- States of the guy (patroller) enemy:
`k.state("idle", ["idle", "left", "right"])`. -/
inductive GuyState
| idle
| left
| right
deriving DecidableEq, Repr

/-- The guy enemy game object from `makeGuyEnemy` (entities.ts): the FSM
state, the remaining time of the `k.wait` started on state entry, the custom
attributes `{ isInhalable: false, speed: 100 }`, position and sprite flip. -/
structure GuyObj where
  isInhalable : Bool
  speed : ℚ
  state : GuyState
  timer : ℚ
  x : ℚ
  y : ℚ
  flipX : Bool
deriving DecidableEq, Repr

/-- Dwell time of each guy state: `onStateEnter("idle")` starts `k.wait(1)`,
`onStateEnter("left")` and `onStateEnter("right")` start `k.wait(2)`. -/
def guyDwell : GuyState → ℚ
  | GuyState.idle => 1
  | GuyState.left => 2
  | GuyState.right => 2

/-- Successor state of each guy state, from the `enterState` call at the end
of each `onStateEnter` wait: idle → left, left → right, right → left. -/
def guyNext : GuyState → GuyState
  | GuyState.idle => GuyState.left
  | GuyState.left => GuyState.right
  | GuyState.right => GuyState.left

/-- Entering a guy state: the `onStateEnter` handlers set the sprite flip
(`flipX = false` on "left", `flipX = true` on "right") and start the state's
wait. -/
def guyEnter (s : GuyState) (g : GuyObj) : GuyObj :=
  { g with
    state := s
    timer := guyDwell s
    flipX := match s with
      | GuyState.idle => g.flipX
      | GuyState.left => false
      | GuyState.right => true }

/-- The per-frame movement of the guy over a frame of duration `dt` seconds:
`onStateUpdate("left")` runs `guy.move(-guy.speed, 0)` and
`onStateUpdate("right")` runs `guy.move(guy.speed, 0)`; `move` displaces by
velocity times the frame time. -/
def guyMove (dt : ℚ) (g : GuyObj) : GuyObj :=
  match g.state with
  | GuyState.idle => g
  | GuyState.left => { g with x := g.x - g.speed * dt }
  | GuyState.right => { g with x := g.x + g.speed * dt }

/-- One engine frame of duration `dt` for the guy enemy: the state's
`onStateUpdate` movement, then the pending wait elapses by `dt`; when it runs
out the `enterState` transition scheduled by the current state's
`onStateEnter` fires. -/
def guyStep (dt : ℚ) (g : GuyObj) : GuyObj :=
  if (guyMove dt g).timer ≤ dt then
    guyEnter (guyNext (guyMove dt g).state) (guyMove dt g)
  else
    { guyMove dt g with timer := (guyMove dt g).timer - dt }

/-- `n` frames of duration `dt` from state `g`. -/
def guyRun (dt : ℚ) (g : GuyObj) : ℕ → GuyObj
  | 0 => g
  | n + 1 => guyStep dt (guyRun dt g n)

/-- Initial guy enemy built by `makeGuyEnemy(k, posX, posY)`: state "idle"
(whose entry starts the 1-second wait), speed 100, not inhalable. -/
def makeGuyEnemy (posX posY sc : ℚ) : GuyObj :=
  { isInhalable := false
    speed := 100
    state := GuyState.idle
    timer := guyDwell GuyState.idle
    x := posX * sc
    y := posY * sc
    flipX := false }

/-- Closed form of the guy state over frames: with `m` frames per second
(`m * dt = 1`), the trace is idle for the first `m` frames (1 s), then
alternates left for `2 * m` frames (2 s) and right for `2 * m` frames (2 s),
indefinitely. -/
def guyPhase (m n : ℕ) : GuyState :=
  if n < m then GuyState.idle
  else if (n - m) % (4 * m) < 2 * m then GuyState.left
  else GuyState.right

/-- Closed form of the guy wait: the number of frames (of duration `dt`,
`m * dt = 1`) left on the pending wait after `n` frames. -/
def guyCoef (m n : ℕ) : ℕ :=
  if n < m then m - n
  else if (n - m) % (4 * m) < 2 * m then 2 * m - (n - m) % (4 * m)
  else 4 * m - (n - m) % (4 * m)

/-- The bird enemy game object from `makeBirdEnemy` (entities.ts): a static
body with `k.move(k.LEFT, speed)`.  Its component list carries no
`isInhalable` initializer; reading the absent property yields `undefined`,
which is falsy everywhere the flag is read, so the Boolean model starts at
`false`. -/
structure BirdObj where
  isInhalable : Bool
  x : ℚ
  y : ℚ
  velX : ℚ
deriving DecidableEq, Repr

/-- Initial bird enemy built by `makeBirdEnemy(k, posX, posY, speed)`. -/
def makeBirdEnemy (posX posY sc speed : ℚ) : BirdObj :=
  { isInhalable := false
    x := posX * sc
    y := posY * sc
    velX := -speed }

/-- Effects of a projectile-involving collision handler: which of the two
objects get destroyed. -/
structure StarHitOutcome where
  starDestroyed : Bool
  enemyDestroyed : Bool
deriving DecidableEq, Repr

/-- `shootingStar.onCollide("platform", () => k.destroy(shootingStar))`,
registered on every spawned projectile (setControls, entities.ts). -/
def starOnCollidePlatform : StarHitOutcome :=
  { starDestroyed := true, enemyDestroyed := false }

/-- `enemy.onCollide("shootingStar", ...)` from `makeInhalable`
(entities.ts): destroys both the enemy and the projectile. -/
def enemyOnCollideStar : StarHitOutcome :=
  { starDestroyed := true, enemyDestroyed := true }

end Kirby

namespace Kirby

/-- C1: an inhaling player colliding with an inhalable enemy consumes it:
the enemy is destroyed, `isFull` becomes true, `isInhaling` becomes false,
all in the same handler run; exactly one enemy is consumed, and the post-state
cannot consume again without re-entering the inhaling state (one-shot). -/
theorem inhale_consume (p : PlayerObj) (e : EnemyRef)
    (hin : p.isInhaling = true) (hih : e.isInhalable = true) :
    (playerOnCollideEnemy p e).enemyDestroyed = true ∧
    (playerOnCollideEnemy p e).player.isFull = true ∧
    (playerOnCollideEnemy p e).player.isInhaling = false ∧
    (∀ e' : EnemyRef,
      (playerOnCollideEnemy (playerOnCollideEnemy p e).player e').enemyDestroyed
        = false) := by
  refine ⟨?_, ?_, ?_, ?_⟩ <;>
    simp [playerOnCollideEnemy, hin, hih]
  intro e'
  split <;> rfl

/-- Witness for `inhale_consume` at a concrete inhaling player and inhalable
enemy. -/
theorem inhale_consume_witness :
    (playerOnCollideEnemy { makePlayer 0 0 1 with isInhaling := true }
        ⟨true⟩).enemyDestroyed = true := by
  exact (inhale_consume { makePlayer 0 0 1 with isInhaling := true }
    ⟨true⟩ rfl rfl).1

/-- C2: on a qualifying enemy collision (one the player does not consume),
while `hp > 0` health decreases by exactly 1 and the player survives; when
`hp = 0` the player entity is destroyed and the level is reset to its start
(`k.go("level-1")`). -/
theorem damage_and_death (p : PlayerObj) (e : EnemyRef)
    (hq : (p.isInhaling && e.isInhalable) = false) :
    (0 < p.hp →
      (playerOnCollideEnemy p e).player.hp = p.hp - 1 ∧
      (playerOnCollideEnemy p e).playerDestroyed = false ∧
      (playerOnCollideEnemy p e).goScene = none) ∧
    (p.hp = 0 →
      (playerOnCollideEnemy p e).playerDestroyed = true ∧
      (playerOnCollideEnemy p e).goScene = some "level-1" ∧
      (playerOnCollideEnemy p e).player.hp = 0) := by
  constructor
  · intro hpos
    have hne : p.hp ≠ 0 := by omega
    simp [playerOnCollideEnemy, hq, hne]
  · intro hz
    simp [playerOnCollideEnemy, hq, hz]

/-- Witness for `damage_and_death`: a freshly made player (hp 3, not
inhaling) loses exactly one hit point on an enemy collision. -/
theorem damage_and_death_witness :
    (playerOnCollideEnemy (makePlayer 0 0 1) ⟨false⟩).player.hp = 3 - 1 := by
  exact ((damage_and_death (makePlayer 0 0 1) ⟨false⟩ rfl).1
    (by norm_num [makePlayer])).1

/-- C10: the inhale-consume branch precedes the death and damage branches:
whenever the player is inhaling and the enemy is inhalable, the player is not
destroyed, its health is unchanged and no scene change is requested — for
every health value, including `hp = 0`. -/
theorem consume_precedes_death (p : PlayerObj) (e : EnemyRef)
    (hin : p.isInhaling = true) (hih : e.isInhalable = true) :
    (playerOnCollideEnemy p e).playerDestroyed = false ∧
    (playerOnCollideEnemy p e).player.hp = p.hp ∧
    (playerOnCollideEnemy p e).goScene = none := by
  refine ⟨?_, ?_, ?_⟩ <;> simp [playerOnCollideEnemy, hin, hih]

/-- Witness for `consume_precedes_death` at an inhaling player whose health
is already 0: it survives the collision with health still 0. -/
theorem consume_precedes_death_witness :
    (playerOnCollideEnemy
        { makePlayer 0 0 1 with isInhaling := true, hp := 0 }
        ⟨true⟩).playerDestroyed = false := by
  exact (consume_precedes_death
    { makePlayer 0 0 1 with isInhaling := true, hp := 0 } ⟨true⟩ rfl rfl).1

/-- C8 counterexample: at `posY = 2001` with full health (hp 3), the
fall-through handler requests the level restart but does not destroy the
player entity — refuting the claim that the fall path performs the same
immediate destruction of the player as the death path. -/
theorem fall_no_destroy_counterexample :
    (playerOnUpdateFall { makePlayer 0 0 1 with posY := 2001 }).goScene
        = some "level-1" ∧
    (playerOnUpdateFall { makePlayer 0 0 1 with posY := 2001 }).playerDestroyed
        = false ∧
    (playerOnCollideEnemy { makePlayer 0 0 1 with hp := 0 }
        ⟨false⟩).playerDestroyed = true := by
  refine ⟨?_, ?_, ?_⟩ <;> norm_num [playerOnUpdateFall, playerOnCollideEnemy,
    makePlayer]

/-- C8 amended: whenever the player's vertical position exceeds the fixed
threshold 2000 — regardless of current health — the fall handler requests the
same full level restart as death (`k.go("level-1")`), but without destroying
the player entity first. -/
theorem fall_resets_level (p : PlayerObj) (h : 2000 < p.posY) :
    (playerOnUpdateFall p).goScene = some "level-1" ∧
    (playerOnUpdateFall p).playerDestroyed = false := by
  constructor <;> simp [playerOnUpdateFall, h]

/-- Witness for `fall_resets_level` at `posY = 2001`, hp 3. -/
theorem fall_resets_level_witness :
    (playerOnUpdateFall { makePlayer 0 0 1 with posY := 2001 }).goScene
        = some "level-1" := by
  exact (fall_resets_level { makePlayer 0 0 1 with posY := 2001 }
    (by norm_num)).1

/-- C3: when the player is full and an inhale key (`z` or `1`) is released,
exactly one shootingStar projectile is spawned, moving horizontally at 800
units/sec in the player's current facing direction, `isFull` becomes false in
the same handler run, and the projectile's collision rules destroy it on
hitting terrain ("platform") and on hitting an enemy (which is destroyed
too). -/
theorem spit_projectile (st : ActionState) (p : PlayerObj) (key : String)
    (hfull : p.isFull = true) (hkey : key = "z" ∨ key = "1") :
    (onKeyRelease st p key).starsSpawned.length = 1 ∧
    (∀ s ∈ (onKeyRelease st p key).starsSpawned,
      s.velX = if p.direction = Dir.left then -800 else 800) ∧
    (onKeyRelease st p key).player.isFull = false ∧
    (onKeyRelease st p key).player.direction = p.direction ∧
    (onKeyRelease st p key).actions.inhale = false ∧
    starOnCollidePlatform.starDestroyed = true ∧
    enemyOnCollideStar.starDestroyed = true ∧
    enemyOnCollideStar.enemyDestroyed = true := by
  rcases hkey with h | h <;> subst h <;>
    simp [onKeyRelease, keyMappings, setAction, hfull, mkShootingStar,
      starOnCollidePlatform, enemyOnCollideStar]

/-- Witness for `spit_projectile`: a full player facing right releasing `z`
spawns exactly one projectile. -/
theorem spit_projectile_witness :
    (onKeyRelease ⟨false, false, true⟩ { makePlayer 0 0 1 with isFull := true }
        "z").starsSpawned.length = 1 := by
  exact (spit_projectile ⟨false, false, true⟩
    { makePlayer 0 0 1 with isFull := true } "z" rfl (Or.inl rfl)).1

/-- C4: each object of a "colliders" layer yields a collider tagged
"platform" with a static body when its name is not "exit", and a non-static
collider tagged "exit" when its name is "exit". -/
theorem collider_tags (o : ColliderObj) :
    (o.name ≠ "exit" →
      (makeCollider o).tag = "platform" ∧ (makeCollider o).isStatic = true) ∧
    (o.name = "exit" →
      (makeCollider o).tag = "exit" ∧ (makeCollider o).isStatic = false) := by
  constructor
  · intro h
    constructor <;> simp [makeCollider, h]
  · intro h
    constructor <;> simp [makeCollider, h]

/-- Witness for `collider_tags` at a "wall" object and an "exit" object. -/
theorem collider_tags_witness :
    (makeCollider ⟨"wall", 0, 0, 10, 10⟩).tag = "platform" ∧
    (makeCollider ⟨"exit", 0, 0, 10, 10⟩).isStatic = false := by
  exact ⟨((collider_tags ⟨"wall", 0, 0, 10, 10⟩).1 (by decide)).1,
    ((collider_tags ⟨"exit", 0, 0, 10, 10⟩).2 rfl).2⟩

/-- Characterization of the spawn-point fold: starting from any registry,
after processing all objects a name's entry is its previous contents
(defaulting to the empty list) followed by the positions of all objects
carrying that name, in input order; a name with no occurrence is left
untouched. -/
lemma foldl_addSpawnPoint (objs : List SpawnObj) (reg : SpawnReg)
    (nm : String) :
    objs.foldl addSpawnPoint reg nm =
      if (objs.filter (fun o => o.name == nm)).map (fun o => (o.x, o.y))
          = [] then
        reg nm
      else
        some ((reg nm).getD [] ++
          (objs.filter (fun o => o.name == nm)).map (fun o => (o.x, o.y))) := by
  induction objs generalizing reg with
  | nil => simp
  | cons o rest ih =>
    by_cases h : o.name = nm
    · subst h
      rw [List.foldl_cons, ih]
      have hsel : addSpawnPoint reg o o.name =
          some ((reg o.name).getD [] ++ [(o.x, o.y)]) := by
        cases hre : reg o.name <;> simp [addSpawnPoint, hre]
      cases hrf : (rest.filter (fun o' => o'.name == o.name)).map
          (fun o' => (o'.x, o'.y)) <;>
        simp [hrf, hsel]
    · have hne : (o.name == nm) = false := by
        simp [h]
      have hskip : addSpawnPoint reg o nm = reg nm := by
        have hnm : ¬nm = o.name := fun hh => h hh.symm
        simp [addSpawnPoint, hnm]
      rw [List.foldl_cons, ih, hskip]
      simp [List.filter_cons, hne]

/-- C5: the spawn-point registry maps every name occurring in the
"spawnpoints" layer to the list of positions of all objects with that name,
in input order (created on the first occurrence), and a name occurring
exactly once maps to a one-element list; names with no occurrence have no
entry. -/
theorem spawnpoints_accumulate (objs : List SpawnObj) (nm : String) :
    (makeSpawnPoints objs nm =
      if objs.filter (fun o => o.name == nm) = [] then none
      else some ((objs.filter (fun o => o.name == nm)).map
        (fun o => (o.x, o.y)))) ∧
    ((objs.filter (fun o => o.name == nm)).length = 1 →
      ∃ p, makeSpawnPoints objs nm = some [p]) := by
  have hmain : makeSpawnPoints objs nm =
      if objs.filter (fun o => o.name == nm) = [] then none
      else some ((objs.filter (fun o => o.name == nm)).map
        (fun o => (o.x, o.y))) := by
    rw [makeSpawnPoints, foldl_addSpawnPoint]
    cases hrf : objs.filter (fun o => o.name == nm) <;> simp [hrf]
  refine ⟨hmain, ?_⟩
  intro hone
  rcases List.length_eq_one.mp hone with ⟨a, ha⟩
  exact ⟨(a.x, a.y), by rw [hmain, ha]; simp⟩

/-- Witness for `spawnpoints_accumulate`: one "player" spawn object yields a
single-element list. -/
theorem spawnpoints_accumulate_witness :
    ∃ p, makeSpawnPoints [⟨"player", 10, 20⟩] "player" = some [p] := by
  exact (spawnpoints_accumulate [⟨"player", 10, 20⟩] "player").2 (by decide)

/-- Over a run of consecutive jump inputs with no grounding, the number of
successful jumps is capped by the charges available at the start. -/
lemma jumpsSucceeded_eq_min (n : ℕ) :
    ∀ j : JumpComp, jumpsSucceeded j n = min n j.jumpsLeft := by
  induction n with
  | zero => intro j; simp [jumpsSucceeded]
  | succ n ih =>
    intro j
    by_cases h : j.jumpsLeft = 0
    · simp [jumpsSucceeded, doubleJump, h, ih, Nat.min_zero]
    · rw [jumpsSucceeded]
      simp only [doubleJump, h, if_false]
      rw [ih]
      simp only [if_true]
      omega

/-- C7 counterexample: the player is created with `k.doubleJump(10)`, so
from a fresh (just-grounded) state three consecutive jump inputs all
succeed — more than the 2 jumps the claim allows between groundings. -/
theorem double_jump_counterexample :
    jumpsSucceeded initJumpComp 3 = 3 ∧ 2 < jumpsSucceeded initJumpComp 3 := by
  decide

/-- C7 amended: the jump counter holds exactly 10 charges
(`k.doubleJump(10)`), reset to 10 on becoming grounded; each jump input
consumes one charge if any remain and is a no-op otherwise, so at most 10
jumps are possible between groundings. -/
theorem double_jump_charges :
    initJumpComp.jumpsLeft = 10 ∧
    (∀ j : JumpComp, (onGrounded j).jumpsLeft = 10) ∧
    (∀ j : JumpComp, j.jumpsLeft = 0 → doubleJump j = (j, false)) ∧
    (∀ j : JumpComp, 0 < j.jumpsLeft →
      (doubleJump j).2 = true ∧
      (doubleJump j).1.jumpsLeft = j.jumpsLeft - 1) ∧
    (∀ n : ℕ, jumpsSucceeded initJumpComp n = min n 10) := by
  refine ⟨rfl, fun j => rfl, ?_, ?_, ?_⟩
  · intro j h
    simp [doubleJump, h]
  · intro j h
    have hne : j.jumpsLeft ≠ 0 := by omega
    constructor <;> simp [doubleJump, hne]
  · intro n
    rw [jumpsSucceeded_eq_min]
    rfl

/-- Witness for `double_jump_charges`: with no charges a jump input is a
no-op, and with the full 10 charges it succeeds. -/
theorem double_jump_charges_witness :
    doubleJump ⟨0⟩ = (⟨0⟩, false) ∧ (doubleJump ⟨10⟩).2 = true := by
  exact ⟨double_jump_charges.2.2.1 ⟨0⟩ rfl,
    (double_jump_charges.2.2.2.1 ⟨10⟩ (by norm_num)).1⟩

/-- The inhalable flag of an enemy that spawned not-inhalable tracks the
geometric overlap with the inhale zone exactly, frame by frame. -/
lemma inhalableTrace_false (overlap : ℕ → Bool) :
    ∀ n, inhalableTrace false overlap n = overlap n := by
  intro n
  induction n with
  | zero => cases h : overlap 0 <;> simp [inhalableTrace, inhalableStep, h]
  | succ n ih =>
    rw [inhalableTrace]
    cases h1 : overlap n <;> cases h2 : overlap (n + 1) <;>
      simp [inhalableStep, ih, h1, h2]

/-- Successor of a remainder: adding one either steps the remainder or wraps
it to zero. -/
lemma succ_mod_eq (a k : ℕ) (hk : 1 < k) :
    (a + 1) % k = if a % k = k - 1 then 0 else a % k + 1 := by
  have h1 : 1 % k = 1 := Nat.mod_eq_of_lt hk
  rw [Nat.add_mod, h1]
  by_cases h : a % k = k - 1
  · rw [if_pos h, h]
    have hkk : k - 1 + 1 = k := by omega
    rw [hkk, Nat.mod_self]
  · rw [if_neg h]
    have hlt : a % k + 1 < k := by
      have := Nat.mod_lt a (show 0 < k by omega)
      omega
    exact Nat.mod_eq_of_lt hlt

/-- The frame count left on the guy's pending wait is always at least 1. -/
lemma guyCoef_pos (m n : ℕ) (hm : 0 < m) : 1 ≤ guyCoef m n := by
  unfold guyCoef
  have hlt : (n - m) % (4 * m) < 4 * m := Nat.mod_lt _ (by omega)
  split
  · omega
  · split <;> omega

/-- On the frame where the wait runs out, the guy phase transitions to its
successor state and a fresh 2-second (`2 * m` frame) wait starts. -/
lemma guyPhase_coef_trans (m n : ℕ) (hm : 0 < m) (hc : guyCoef m n = 1) :
    guyPhase m (n + 1) = guyNext (guyPhase m n) ∧
    guyCoef m (n + 1) = 2 * m := by
  unfold guyCoef at hc
  by_cases h1 : n < m
  · rw [if_pos h1] at hc
    have hn : n + 1 = m := by omega
    have h0 : (n + 1 - m) % (4 * m) = 0 := by
      rw [hn]
      simp
    constructor
    · unfold guyPhase
      rw [if_pos h1, if_neg (by omega), h0, if_pos (by omega)]
      rfl
    · unfold guyCoef
      rw [if_neg (by omega), h0, if_pos (by omega)]
      omega
  · rw [if_neg h1] at hc
    have hk : 1 < 4 * m := by omega
    have hr : (n - m) % (4 * m) < 4 * m := Nat.mod_lt _ (by omega)
    have hsucc : n + 1 - m = (n - m) + 1 := by omega
    by_cases h2 : (n - m) % (4 * m) < 2 * m
    · rw [if_pos h2] at hc
      have hr2 : (n - m) % (4 * m) = 2 * m - 1 := by omega
      have hmod : (n + 1 - m) % (4 * m) = 2 * m := by
        rw [hsucc, succ_mod_eq _ _ hk, hr2, if_neg (by omega)]
        omega
      constructor
      · unfold guyPhase
        rw [if_neg h1, if_neg (by omega), if_pos h2, hmod,
          if_neg (by omega)]
        rfl
      · unfold guyCoef
        rw [if_neg (by omega), hmod, if_neg (by omega)]
        omega
    · rw [if_neg h2] at hc
      have hr2 : (n - m) % (4 * m) = 4 * m - 1 := by omega
      have hmod : (n + 1 - m) % (4 * m) = 0 := by
        rw [hsucc, succ_mod_eq _ _ hk, hr2, if_pos rfl]
      constructor
      · unfold guyPhase
        rw [if_neg h1, if_neg (by omega), if_neg h2, hmod,
          if_pos (by omega)]
        rfl
      · unfold guyCoef
        rw [if_neg (by omega), hmod, if_pos (by omega)]
        omega

/-- On a frame where the wait does not run out, the guy phase is unchanged
and the wait loses one frame. -/
lemma guyPhase_coef_stay (m n : ℕ) (hm : 0 < m) (hc : 2 ≤ guyCoef m n) :
    guyPhase m (n + 1) = guyPhase m n ∧
    guyCoef m (n + 1) = guyCoef m n - 1 := by
  unfold guyCoef at hc
  by_cases h1 : n < m
  · rw [if_pos h1] at hc
    have hn : n + 1 < m := by omega
    constructor
    · unfold guyPhase
      rw [if_pos h1, if_pos hn]
    · unfold guyCoef
      rw [if_pos h1, if_pos hn]
      omega
  · rw [if_neg h1] at hc
    have hk : 1 < 4 * m := by omega
    have hr : (n - m) % (4 * m) < 4 * m := Nat.mod_lt _ (by omega)
    have hsucc : n + 1 - m = (n - m) + 1 := by omega
    by_cases h2 : (n - m) % (4 * m) < 2 * m
    · rw [if_pos h2] at hc
      have hmod : (n + 1 - m) % (4 * m) = (n - m) % (4 * m) + 1 := by
        rw [hsucc, succ_mod_eq _ _ hk, if_neg (by omega)]
      constructor
      · unfold guyPhase
        rw [if_neg h1, if_neg (by omega), if_pos h2, hmod,
          if_pos (by omega)]
      · unfold guyCoef
        rw [if_neg h1, if_neg (by omega), if_pos h2, hmod,
          if_pos (by omega)]
        omega
    · rw [if_neg h2] at hc
      have hmod : (n + 1 - m) % (4 * m) = (n - m) % (4 * m) + 1 := by
        rw [hsucc, succ_mod_eq _ _ hk, if_neg (by omega)]
      constructor
      · unfold guyPhase
        rw [if_neg h1, if_neg (by omega), if_neg h2, hmod,
          if_neg (by omega)]
      · unfold guyCoef
        rw [if_neg h1, if_neg (by omega), if_neg h2, hmod,
          if_neg (by omega)]
        omega

/-- The per-frame movement changes neither the state, the timer nor the
speed of the guy. -/
lemma guyMove_state (dt : ℚ) (g : GuyObj) : (guyMove dt g).state = g.state := by
  rcases g with ⟨i, sp, st, t, x, y, f⟩
  cases st <;> rfl

/-- The per-frame movement keeps the timer. -/
lemma guyMove_timer (dt : ℚ) (g : GuyObj) : (guyMove dt g).timer = g.timer := by
  rcases g with ⟨i, sp, st, t, x, y, f⟩
  cases st <;> rfl

/-- The per-frame movement keeps the speed. -/
lemma guyMove_speed (dt : ℚ) (g : GuyObj) : (guyMove dt g).speed = g.speed := by
  rcases g with ⟨i, sp, st, t, x, y, f⟩
  cases st <;> rfl

/-- A whole frame keeps the speed. -/
lemma guyStep_speed (dt : ℚ) (g : GuyObj) : (guyStep dt g).speed = g.speed := by
  unfold guyStep
  split
  · exact guyMove_speed dt g
  · exact guyMove_speed dt g

/-- A whole frame moves `x` exactly as the state's `onStateUpdate` does. -/
lemma guyStep_x (dt : ℚ) (g : GuyObj) : (guyStep dt g).x = (guyMove dt g).x := by
  unfold guyStep
  split
  · rfl
  · rfl

/-- The next state always dwells 2 seconds (it is "left" or "right"). -/
lemma guyDwell_guyNext (s : GuyState) : guyDwell (guyNext s) = 2 := by
  cases s <;> rfl

/-- The guy's speed stays at its spawn value 100 forever. -/
lemma guyRun_speed (dt px py sc : ℚ) (n : ℕ) :
    (guyRun dt (makeGuyEnemy px py sc) n).speed = 100 := by
  induction n with
  | zero => rfl
  | succ n ih => rw [guyRun, guyStep_speed, ih]

/-- Frame-indexed invariant of the guy FSM: with `m` frames per second the
state follows the closed-form phase and the pending wait holds the
closed-form number of frames. -/
lemma guyRun_state_timer (m : ℕ) (dt : ℚ) (g0 : GuyObj) (hm : 0 < m)
    (hdt : (m : ℚ) * dt = 1)
    (hs0 : g0.state = GuyState.idle) (ht0 : g0.timer = 1) :
    ∀ n, (guyRun dt g0 n).state = guyPhase m n ∧
      (guyRun dt g0 n).timer = (guyCoef m n : ℚ) * dt := by
  have hmQ : (0 : ℚ) < m := by exact_mod_cast hm
  have hdtpos : 0 < dt := by nlinarith [hdt, hmQ]
  intro n
  induction n with
  | zero =>
    constructor
    · rw [guyRun, hs0]
      unfold guyPhase
      rw [if_pos hm]
    · rw [guyRun, ht0]
      unfold guyCoef
      rw [if_pos hm, Nat.sub_zero]
      exact hdt.symm
  | succ n ih =>
    obtain ⟨ihs, iht⟩ := ih
    have hcoef1 := guyCoef_pos m n hm
    rw [guyRun]
    unfold guyStep
    rw [guyMove_timer, guyMove_state, ihs, iht]
    by_cases hc : guyCoef m n = 1
    · have hcond : (guyCoef m n : ℚ) * dt ≤ dt := by
        rw [hc]
        simp
      rw [if_pos hcond]
      obtain ⟨hp, hcf⟩ := guyPhase_coef_trans m n hm hc
      constructor
      · rw [hp]
        rfl
      · show guyDwell (guyNext (guyPhase m n)) = (guyCoef m (n + 1) : ℚ) * dt
        rw [guyDwell_guyNext, hcf]
        push_cast
        linear_combination -2 * hdt
    · have hc2 : 2 ≤ guyCoef m n := by omega
      have hgt : dt < (guyCoef m n : ℚ) * dt := by
        have h1 : (1 : ℚ) < (guyCoef m n : ℚ) := by
          exact_mod_cast (by omega : 1 < guyCoef m n)
        nlinarith [hdtpos]
      rw [if_neg (not_le.mpr hgt)]
      obtain ⟨hp, hcf⟩ := guyPhase_coef_stay m n hm hc2
      constructor
      · rw [hp]
        show (guyMove dt (guyRun dt g0 n)).state = guyPhase m n
        rw [guyMove_state]
        exact ihs
      · show (guyCoef m n : ℚ) * dt - dt = (guyCoef m (n + 1) : ℚ) * dt
        rw [hcf]
        push_cast [Nat.cast_sub (by omega : 1 ≤ guyCoef m n)]
        ring

/-- C9: every enemy variant (flame, guy and bird) spawns with `isInhalable`
false, and under the `makeInhalable` begin/end-overlap handlers the flag at
any frame equals the geometric overlap with the player's inhale zone at that
frame. -/
theorem inhalable_only_in_zone (px py sc sp : ℚ) (overlap : ℕ → Bool)
    (n : ℕ) :
    (makeFlameEnemy px py sc).isInhalable = false ∧
    (makeGuyEnemy px py sc).isInhalable = false ∧
    (makeBirdEnemy px py sc sp).isInhalable = false ∧
    inhalableTrace (makeFlameEnemy px py sc).isInhalable overlap n
      = overlap n ∧
    inhalableTrace (makeGuyEnemy px py sc).isInhalable overlap n
      = overlap n ∧
    inhalableTrace (makeBirdEnemy px py sc sp).isInhalable overlap n
      = overlap n := by
  refine ⟨rfl, rfl, rfl, ?_, ?_, ?_⟩ <;>
    exact inhalableTrace_false overlap n

/-- C6: a freshly spawned guy enemy, run at `m` frames per second
(`m * dt = 1` with `dt` the frame duration), follows the state trace
idle (1 s) → left (2 s) → right (2 s) → left (2 s) → … indefinitely, as the
closed-form `guyPhase`; while in "left" its `x` strictly decreases by its
fixed speed 100 times `dt` each frame, and while in "right" it strictly
increases by the same amount. -/
theorem guy_patrol_trace (m : ℕ) (dt px py sc : ℚ) (hm : 0 < m)
    (hdt : (m : ℚ) * dt = 1) (n : ℕ) :
    (guyRun dt (makeGuyEnemy px py sc) n).state = guyPhase m n ∧
    ((guyRun dt (makeGuyEnemy px py sc) n).state = GuyState.left →
      (guyRun dt (makeGuyEnemy px py sc) (n + 1)).x
        = (guyRun dt (makeGuyEnemy px py sc) n).x - 100 * dt ∧
      (guyRun dt (makeGuyEnemy px py sc) (n + 1)).x
        < (guyRun dt (makeGuyEnemy px py sc) n).x) ∧
    ((guyRun dt (makeGuyEnemy px py sc) n).state = GuyState.right →
      (guyRun dt (makeGuyEnemy px py sc) (n + 1)).x
        = (guyRun dt (makeGuyEnemy px py sc) n).x + 100 * dt ∧
      (guyRun dt (makeGuyEnemy px py sc) n).x
        < (guyRun dt (makeGuyEnemy px py sc) (n + 1)).x) := by
  have hmQ : (0 : ℚ) < m := by exact_mod_cast hm
  have hdtpos : 0 < dt := by nlinarith [hdt, hmQ]
  have hinv := guyRun_state_timer m dt (makeGuyEnemy px py sc) hm hdt rfl rfl
  have hspeed := guyRun_speed dt px py sc n
  refine ⟨(hinv n).1, ?_, ?_⟩
  · intro hst
    have hx : (guyRun dt (makeGuyEnemy px py sc) (n + 1)).x
        = (guyRun dt (makeGuyEnemy px py sc) n).x - 100 * dt := by
      rw [guyRun, guyStep_x]
      unfold guyMove
      rw [hst]
      simp only
      rw [hspeed]
    refine ⟨hx, ?_⟩
    rw [hx]
    nlinarith [hdtpos]
  · intro hst
    have hx : (guyRun dt (makeGuyEnemy px py sc) (n + 1)).x
        = (guyRun dt (makeGuyEnemy px py sc) n).x + 100 * dt := by
      rw [guyRun, guyStep_x]
      unfold guyMove
      rw [hst]
      simp only
      rw [hspeed]
    refine ⟨hx, ?_⟩
    rw [hx]
    nlinarith [hdtpos]

/-- Witness for `guy_patrol_trace` at 1 frame per second: after one frame
the guy has left "idle" for "left", matching the closed form. -/
theorem guy_patrol_trace_witness :
    (guyRun 1 (makeGuyEnemy 0 0 1) 1).state = guyPhase 1 1 ∧
    guyPhase 1 1 = GuyState.left := by
  exact ⟨(guy_patrol_trace 1 1 0 0 1 (by norm_num) (by norm_num) 1).1,
    by rfl⟩

end Kirby
